import Mathlib

/-!
Verification of the cancellation-signal utility `pi-tools.abort.ts`
(`combineAbortSignals`, `wrapToolWithAbortSignal`, `throwAbortError`,
`isRealAbortSignal`).

Modelling choices (shallow embedding):

* An `AbortSignal` lives in a `World`: a list of `SignalState`s; a signal
  value is its index in the world.  `aborted` is the signal's flag,
  `listeners` the one-shot "abort"-event callbacks registered via
  `addEventListener("abort", onAbort, { once: true })`.  Since every callback
  the source registers is `() => controller.abort()`, a listener is modelled
  as the index of the controller's signal to abort.
* The flags `isInstance`, `abortedIsBool`, `hasAddEventListener`,
  `hasRemoveEventListener` model what `isRealAbortSignal` inspects:
  `instanceof AbortSignal` and the `typeof` checks on `aborted`,
  `addEventListener`, `removeEventListener`.
* `AbortController.abort()` / dispatching the "abort" event is
  `triggerAbort`, fuel-indexed because aborting may cascade through
  listeners.  Aborting an already-aborted signal is a no-op, as in JS.
* `AbortSignal.any([a, b])` (the native fast path) is modelled with the same
  observable semantics as the manual path: a fresh signal that aborts when
  either source aborts.  `combineAbortSignals` additionally returns a ghost
  `CombinePath` marker recording which of the source's return branches was
  taken; it does not influence any computed state.
* `wrappedExecute` returns, besides the state and the result, a ghost list of
  the invocations the wrapper makes of the underlying `execute` (one record
  per call site reached), so "never invoked" / "invoked exactly once" are
  literal statements about that list.
-/

/-- State of one `AbortSignal` in the world.  `listeners` are the pending
one-shot abort listeners: indices of signals to abort when this one aborts. -/
structure SignalState where
  aborted : Bool
  listeners : List Nat
  isInstance : Bool
  abortedIsBool : Bool
  hasAddEventListener : Bool
  hasRemoveEventListener : Bool
deriving DecidableEq, Repr

/-- The heap of signals; a signal value is an index into this list. -/
abbrev World := List SignalState

/-- `s.aborted` for a signal reference (false for a dangling reference,
which never arises from the modelled code). -/
def sigAborted (w : World) (i : Nat) : Bool :=
  match w[i]? with
  | none => false
  | some s => s.aborted

/-- The pending one-shot abort listeners of a signal. -/
def sigListeners (w : World) (i : Nat) : List Nat :=
  match w[i]? with
  | none => []
  | some s => s.listeners

/-- `combined?.aborted` — optional chaining: `undefined` is falsy. -/
def combinedAborted (w : World) (s : Option Nat) : Bool :=
  match s with
  | none => false
  | some i => sigAborted w i

/-- `isRealAbortSignal`: `obj instanceof AbortSignal` plus the structural
checks `typeof signal.aborted === "boolean"`,
`typeof signal.addEventListener === "function"`,
`typeof signal.removeEventListener === "function"`. -/
def isRealAbortSignal (w : World) (i : Nat) : Bool :=
  match w[i]? with
  | none => false
  | some s =>
      s.isInstance && s.abortedIsBool && s.hasAddEventListener &&
        s.hasRemoveEventListener

/-- The signal of a freshly constructed `AbortController` (also the result of
`AbortSignal.any`): pending, no listeners, a genuine `AbortSignal`. -/
def freshSignal : SignalState :=
  { aborted := false, listeners := [], isInstance := true,
    abortedIsBool := true, hasAddEventListener := true,
    hasRemoveEventListener := true }

/-- `sig.addEventListener("abort", () => abort target, { once: true })`. -/
def addListener (w : World) (i : Nat) (target : Nat) : World :=
  match w[i]? with
  | none => w
  | some s => w.set i { s with listeners := s.listeners ++ [target] }

/-- `controller.abort()` / delivery of the "abort" event.  A no-op on an
already-aborted signal; otherwise sets the flag, consumes the one-shot
listeners and aborts each listener's target in turn.  Fuel bounds the
cascade depth (2 suffices for every world the modelled code builds). -/
def triggerAbort : Nat → World → Nat → World
  | 0, w, _ => w
  | Nat.succ f, w, i =>
    match w[i]? with
    | none => w
    | some s =>
      if s.aborted then w
      else
        s.listeners.foldl (triggerAbort f)
          (w.set i { s with aborted := true, listeners := [] })

/-- Ghost marker for the return branch `combineAbortSignals` takes. -/
inductive CombinePath where
  | neitherGiven
  | onlyA
  | onlyB
  | shortA
  | shortB
  | nativeAny
  | manual
deriving DecidableEq, Repr

/-- `combineAbortSignals(a?, b?)`.  `anyAvailable` models
`typeof AbortSignal.any === "function"` (a host capability).  Returns the
updated world, the resulting signal (or `undefined`), and the ghost branch
marker.  The native `AbortSignal.any([a, b])` branch is modelled with the
same observable construction as the manual `AbortController` branch. -/
def combineAbortSignals (anyAvailable : Bool) (w : World)
    (a b : Option Nat) : World × Option Nat × CombinePath :=
  match a, b with
  | none, none => (w, none, CombinePath.neitherGiven)
  | some a, none => (w, some a, CombinePath.onlyA)
  | none, some b => (w, some b, CombinePath.onlyB)
  | some a, some b =>
    if sigAborted w a then (w, some a, CombinePath.shortA)
    else if sigAborted w b then (w, some b, CombinePath.shortB)
    else if anyAvailable && isRealAbortSignal w a && isRealAbortSignal w b then
      let c := w.length
      let w1 := w ++ [freshSignal]
      (addListener (addListener w1 a c) b c, some c, CombinePath.nativeAny)
    else
      let c := w.length
      let w1 := w ++ [freshSignal]
      (addListener (addListener w1 a c) b c, some c, CombinePath.manual)

/-- The error thrown by `throwAbortError`:
`new Error("Aborted")` with `err.name = "AbortError"`. -/
structure JsError where
  name : String
  message : String
deriving DecidableEq, Repr

/-- `throwAbortError()` throws exactly this error value. -/
def throwAbortError : JsError :=
  { name := "AbortError", message := "Aborted" }

/-- A tool's asynchronous `execute(toolCallId, params, signal, onUpdate)`;
it may observe and extend the signal world, and resolves or rejects. -/
abbrev ExecFn :=
  World → String → String → Option Nat → Option String →
    World × Except JsError String

/-- Ghost record of one invocation of the underlying `execute`:
the call id, params, signal and progress callback it received. -/
structure CallRecord where
  toolCallId : String
  params : String
  signal : Option Nat
  onUpdate : Option String

/-- `AnyAgentTool`: metadata plus an optional `execute`. -/
structure AnyAgentTool where
  name : String
  description : String
  execute : Option ExecFn

/-- Body of the wrapper's replacement `execute`: combine the per-call signal
with the ambient one, throw `AbortError` if the combined signal is already
aborted, otherwise delegate to the original `execute` with the combined
signal.  The third component is the ghost list of invocations made of the
underlying `execute`. -/
def wrappedExecute (anyAvailable : Bool) (execute : ExecFn)
    (abortSignal : Nat) (w : World) (toolCallId : String) (params : String)
    (signal : Option Nat) (onUpdate : Option String) :
    World × Except JsError String × List CallRecord :=
  let w1 := (combineAbortSignals anyAvailable w signal (some abortSignal)).1
  let combined := (combineAbortSignals anyAvailable w signal (some abortSignal)).2.1
  if combinedAborted w1 combined then
    (w1, Except.error throwAbortError, [])
  else
    let er := execute w1 toolCallId params combined onUpdate
    (er.1, er.2, [⟨toolCallId, params, combined, onUpdate⟩])

/-- `wrapToolWithAbortSignal(tool, abortSignal?)`. -/
def wrapToolWithAbortSignal (anyAvailable : Bool) (tool : AnyAgentTool)
    (abortSignal : Option Nat) : AnyAgentTool :=
  match abortSignal with
  | none => tool
  | some amb =>
    match tool.execute with
    | none => tool
    | some execute =>
      { tool with
        execute := some (fun w toolCallId params signal onUpdate =>
          let r := wrappedExecute anyAvailable execute amb w toolCallId
            params signal onUpdate
          (r.1, r.2.1)) }

/-- A pending, genuine signal whose flag has been set: an already-aborted
real `AbortSignal`. -/
def abortedSignal : SignalState :=
  { freshSignal with aborted := true }

/-- A cross-realm lookalike: structurally complete but failing
`instanceof AbortSignal` is not what this models; this models an object
failing the structural check (`typeof signal.aborted` not boolean). -/
def fakeSignal : SignalState :=
  { freshSignal with abortedIsBool := false }

/-- Sample underlying `execute` used by witnesses: resolves with "ok". -/
def sampleExec : ExecFn := fun w _ _ _ _ => (w, Except.ok "ok")

/-- Sample tool with an execution operation, used by witnesses. -/
def sampleTool : AnyAgentTool :=
  { name := "echo", description := "d", execute := some sampleExec }

/-- Sample metadata-only tool (no execution operation). -/
def toolNoExec : AnyAgentTool :=
  { name := "meta", description := "d", execute := none }

/-! ## Supporting lemmas about the signal world -/

theorem addListener_length (w : World) (i t : Nat) :
    (addListener w i t).length = w.length := by
  unfold addListener
  cases w[i]? <;> simp

theorem sigAborted_addListener (w : World) (i t j : Nat) :
    sigAborted (addListener w i t) j = sigAborted w j := by
  unfold addListener
  cases hg : w[i]? with
  | none => rfl
  | some s =>
    by_cases hij : i = j
    · subst hij
      have hlt : i < w.length := by
        obtain ⟨h, _⟩ := List.getElem?_eq_some.mp hg
        exact h
      simp [sigAborted, List.getElem?_set_self hlt, hg]
    · simp [sigAborted, List.getElem?_set_ne hij]

theorem sigListeners_addListener_self (w : World) (i t : Nat)
    (h : i < w.length) :
    sigListeners (addListener w i t) i = sigListeners w i ++ [t] := by
  unfold addListener
  cases hg : w[i]? with
  | none =>
    exact absurd hg (by simp [List.getElem?_eq_some_iff]; omega)
  | some s =>
    simp [sigListeners, List.getElem?_set_self h, hg]

theorem sigListeners_addListener_ne (w : World) (i t j : Nat) (h : i ≠ j) :
    sigListeners (addListener w i t) j = sigListeners w j := by
  unfold addListener
  cases hg : w[i]? with
  | none => rfl
  | some s => simp [sigListeners, List.getElem?_set_ne h]

theorem triggerAbort_length :
    ∀ (f : Nat) (w : World) (i : Nat), (triggerAbort f w i).length = w.length := by
  intro f
  induction f with
  | zero => intro w i; rfl
  | succ f ih =>
    have fold : ∀ (l : List Nat) (w : World),
        (l.foldl (triggerAbort f) w).length = w.length := by
      intro l
      induction l with
      | nil => intro w; rfl
      | cons x xs ihl => intro w; rw [List.foldl_cons, ihl, ih]
    intro w i
    unfold triggerAbort
    cases hg : w[i]? with
    | none => rfl
    | some s =>
      by_cases hab : s.aborted
      · simp [hab]
      · simp [hab, fold]

theorem triggerAbort_mono :
    ∀ (f : Nat) (w : World) (i j : Nat),
      sigAborted w j = true → sigAborted (triggerAbort f w i) j = true := by
  intro f
  induction f with
  | zero => intro w i j h; exact h
  | succ f ih =>
    have fold : ∀ (l : List Nat) (w : World) (j : Nat),
        sigAborted w j = true →
          sigAborted (l.foldl (triggerAbort f) w) j = true := by
      intro l
      induction l with
      | nil => intro w j h; exact h
      | cons x xs ihl =>
        intro w j h
        rw [List.foldl_cons]
        exact ihl _ _ (ih _ _ _ h)
    intro w i j h
    unfold triggerAbort
    cases hg : w[i]? with
    | none => exact h
    | some s =>
      by_cases hab : s.aborted
      · simp only [hab, if_true]
        exact h
      · have hji : j ≠ i := by
          intro he
          subst he
          rw [sigAborted, hg] at h
          exact hab h
        simp only [hab, if_false, Bool.false_eq_true]
        apply fold
        rw [sigAborted, List.getElem?_set_ne (Ne.symm hji)]
        rw [sigAborted] at h
        exact h

theorem foldl_triggerAbort_mono (f : Nat) (l : List Nat) (w : World) (j : Nat)
    (h : sigAborted w j = true) :
    sigAborted (l.foldl (triggerAbort f) w) j = true := by
  induction l generalizing w with
  | nil => exact h
  | cons x xs ih =>
    rw [List.foldl_cons]
    exact ih _ (triggerAbort_mono _ _ _ _ h)

theorem triggerAbort_self (f : Nat) (w : World) (i : Nat)
    (hf : 1 ≤ f) (hi : i < w.length) :
    sigAborted (triggerAbort f w i) i = true := by
  obtain ⟨g, rfl⟩ : ∃ g, f = g + 1 := ⟨f - 1, by omega⟩
  obtain ⟨s, hs⟩ : ∃ s, w[i]? = some s := ⟨w[i], List.getElem?_eq_getElem hi⟩
  unfold triggerAbort
  rw [hs]
  by_cases hab : s.aborted
  · simp only [hab, if_true]
    rw [sigAborted, hs]
    exact hab
  · simp only [hab, Bool.false_eq_true, if_false]
    apply foldl_triggerAbort_mono
    rw [sigAborted, List.getElem?_set_self hi]

theorem triggerAbort_noop (f : Nat) (w : World) (i : Nat)
    (h : sigAborted w i = true) :
    triggerAbort f w i = w := by
  cases f with
  | zero => rfl
  | succ f =>
    unfold triggerAbort
    cases hg : w[i]? with
    | none => rfl
    | some s =>
      rw [sigAborted, hg] at h
      have h' : s.aborted = true := h
      simp [h']

theorem foldl_triggerAbort_mem (f : Nat) (hf : 1 ≤ f) :
    ∀ (l : List Nat) (w : World) (c : Nat), c ∈ l → c < w.length →
      sigAborted (l.foldl (triggerAbort f) w) c = true := by
  intro l
  induction l with
  | nil =>
    intro w c hc
    cases hc
  | cons x xs ih =>
    intro w c hc hcv
    rw [List.foldl_cons]
    rcases List.mem_cons.mp hc with h | h
    · subst h
      exact foldl_triggerAbort_mono f xs _ c (triggerAbort_self f w c hf hcv)
    · exact ih (triggerAbort f w x) c h (by rw [triggerAbort_length]; exact hcv)

theorem triggerAbort_listener_aborted (f : Nat) (w : World) (i c : Nat)
    (hf : 2 ≤ f) (hi : sigAborted w i = false) (hiv : i < w.length)
    (hc : c ∈ sigListeners w i) (hcv : c < w.length) :
    sigAborted (triggerAbort f w i) c = true := by
  obtain ⟨g, rfl⟩ : ∃ g, f = g + 1 := ⟨f - 1, by omega⟩
  obtain ⟨s, hs⟩ : ∃ s, w[i]? = some s := ⟨w[i], List.getElem?_eq_getElem hiv⟩
  rw [sigAborted, hs] at hi
  rw [sigListeners, hs] at hc
  have hi' : s.aborted = false := hi
  have hc' : c ∈ s.listeners := hc
  unfold triggerAbort
  rw [hs]
  simp only [hi', Bool.false_eq_true, if_false]
  apply foldl_triggerAbort_mem g (by omega) s.listeners _ c hc'
  rw [List.length_set]
  exact hcv

theorem combine_untriggered_parts (anyAvailable : Bool) (w : World) (a b : Nat)
    (hna : sigAborted w a = false) (hnb : sigAborted w b = false) :
    (combineAbortSignals anyAvailable w (some a) (some b)).1
        = addListener (addListener (w ++ [freshSignal]) a w.length) b w.length ∧
    (combineAbortSignals anyAvailable w (some a) (some b)).2.1 = some w.length := by
  unfold combineAbortSignals
  simp only [hna, hnb, Bool.false_eq_true, if_false]
  by_cases h : (anyAvailable && isRealAbortSignal w a && isRealAbortSignal w b) = true
  · simp [h]
  · simp [h]

theorem sigAborted_append_left (w : World) (x : SignalState) (j : Nat)
    (h : j < w.length) :
    sigAborted (w ++ [x]) j = sigAborted w j := by
  rw [sigAborted, sigAborted, List.getElem?_append_left h]

theorem sigAborted_append_new (w : World) (x : SignalState) :
    sigAborted (w ++ [x]) w.length = x.aborted := by
  rw [sigAborted, List.getElem?_concat_length]

theorem sigListeners_append_left (w : World) (x : SignalState) (j : Nat)
    (h : j < w.length) :
    sigListeners (w ++ [x]) j = sigListeners w j := by
  rw [sigListeners, sigListeners, List.getElem?_append_left h]

theorem combined_world_not_aborted (w : World) (a b : Nat) :
    sigAborted
        (addListener (addListener (w ++ [freshSignal]) a w.length) b w.length)
        w.length = false := by
  rw [sigAborted_addListener, sigAborted_addListener, sigAborted_append_new]
  rfl

theorem combined_world_src_not_aborted (w : World) (a b j : Nat)
    (hj : j < w.length) (hja : sigAborted w j = false) :
    sigAborted
        (addListener (addListener (w ++ [freshSignal]) a w.length) b w.length)
        j = false := by
  rw [sigAborted_addListener, sigAborted_addListener, sigAborted_append_left _ _ _ hj]
  exact hja

theorem combined_world_listener_a (w : World) (a b : Nat)
    (ha : a < w.length) (hb : b < w.length) :
    w.length ∈ sigListeners
        (addListener (addListener (w ++ [freshSignal]) a w.length) b w.length)
        a := by
  have ha1 : a < (w ++ [freshSignal]).length := by simp; omega
  have hmem : w.length ∈ sigListeners (addListener (w ++ [freshSignal]) a w.length) a := by
    rw [sigListeners_addListener_self _ _ _ ha1]
    simp
  by_cases hba : b = a
  · subst hba
    have hb1 : b < (addListener (w ++ [freshSignal]) b w.length).length := by
      rw [addListener_length]
      simp
      omega
    rw [sigListeners_addListener_self _ _ _ hb1]
    simp
  · rw [sigListeners_addListener_ne _ _ _ _ hba]
    exact hmem

theorem combined_world_listener_b (w : World) (a b : Nat)
    (hb : b < w.length) :
    w.length ∈ sigListeners
        (addListener (addListener (w ++ [freshSignal]) a w.length) b w.length)
        b := by
  have hb1 : b < (addListener (w ++ [freshSignal]) a w.length).length := by
    rw [addListener_length]
    simp
    omega
  rw [sigListeners_addListener_self _ _ _ hb1]
  simp

theorem combined_world_length (w : World) (a b : Nat) :
    (addListener (addListener (w ++ [freshSignal]) a w.length) b w.length).length
      = w.length + 1 := by
  rw [addListener_length, addListener_length]
  simp

/-! ## Claim theorems -/

/-- C5: `combineAbortSignals` applied to no inputs returns `undefined`, and
applied to exactly one provided input returns that very input (same signal
value, world untouched — so no copy is made). -/
theorem combine_identity_on_missing_inputs (anyAvailable : Bool) (w : World)
    (a b : Nat) :
    combineAbortSignals anyAvailable w none none
        = (w, none, CombinePath.neitherGiven) ∧
    combineAbortSignals anyAvailable w (some a) none
        = (w, some a, CombinePath.onlyA) ∧
    combineAbortSignals anyAvailable w none (some b)
        = (w, some b, CombinePath.onlyB) :=
  ⟨rfl, rfl, rfl⟩

/-- C6: `wrapToolWithAbortSignal tool none` is the original tool itself
(identity when no ambient signal is supplied). -/
theorem wrap_identity_without_ambient (anyAvailable : Bool)
    (tool : AnyAgentTool) :
    wrapToolWithAbortSignal anyAvailable tool none = tool := rfl

/-- C7: when the tool has no execution operation, wrapping with any ambient
signal returns the original tool value unchanged. -/
theorem wrap_identity_without_execute (anyAvailable : Bool)
    (tool : AnyAgentTool) (amb : Nat) (h : tool.execute = none) :
    wrapToolWithAbortSignal anyAvailable tool (some amb) = tool := by
  simp [wrapToolWithAbortSignal, h]

/-- Witness for C7 at the concrete metadata-only tool `toolNoExec`. -/
theorem wrap_identity_without_execute_w :
    toolNoExec.execute = none ∧
    wrapToolWithAbortSignal true toolNoExec (some 0) = toolNoExec :=
  ⟨rfl, wrap_identity_without_execute true toolNoExec 0 rfl⟩

/-- C3: when both inputs are provided and the first is already aborted,
`combineAbortSignals` returns exactly the first input with the world
untouched (no new signal constructed). -/
theorem combine_short_circuits_on_aborted_a (anyAvailable : Bool) (w : World)
    (a b : Nat) (h : sigAborted w a = true) :
    combineAbortSignals anyAvailable w (some a) (some b)
        = (w, some a, CombinePath.shortA) := by
  simp [combineAbortSignals, h]

/-- Witness for C3: a two-signal world where signal 0 is aborted. -/
theorem combine_short_circuits_on_aborted_a_w :
    sigAborted [abortedSignal, freshSignal] 0 = true ∧
    combineAbortSignals true [abortedSignal, freshSignal] (some 0) (some 1)
        = ([abortedSignal, freshSignal], some 0, CombinePath.shortA) :=
  ⟨by decide,
    combine_short_circuits_on_aborted_a true [abortedSignal, freshSignal] 0 1
      (by decide)⟩

/-- C10: when both inputs are provided and both are already aborted,
`combineAbortSignals` returns exactly the first input — the `a`-check runs
before the `b`-check, so the choice is deterministic and asymmetric. -/
theorem combine_prefers_first_when_both_aborted (anyAvailable : Bool)
    (w : World) (a b : Nat) (ha : sigAborted w a = true)
    (hb : sigAborted w b = true) :
    combineAbortSignals anyAvailable w (some a) (some b)
        = (w, some a, CombinePath.shortA) := by
  simp [combineAbortSignals, ha]

/-- Witness for C10: both signals of a two-signal world aborted. -/
theorem combine_prefers_first_when_both_aborted_w :
    sigAborted [abortedSignal, abortedSignal] 0 = true ∧
    sigAborted [abortedSignal, abortedSignal] 1 = true ∧
    combineAbortSignals true [abortedSignal, abortedSignal] (some 0) (some 1)
        = ([abortedSignal, abortedSignal], some 0, CombinePath.shortA) :=
  ⟨by decide, by decide,
    combine_prefers_first_when_both_aborted true [abortedSignal, abortedSignal]
      0 1 (by decide) (by decide)⟩

/-- C9: wrapping a tool that has an execution operation yields a tool whose
every field other than `execute` equals the corresponding field of the
input tool; the embedding is pure, so the original tool value is untouched. -/
theorem wrap_preserves_other_fields (anyAvailable : Bool)
    (tool : AnyAgentTool) (execute : ExecFn) (amb : Nat)
    (h : tool.execute = some execute) :
    (wrapToolWithAbortSignal anyAvailable tool (some amb)).name = tool.name ∧
    (wrapToolWithAbortSignal anyAvailable tool (some amb)).description
        = tool.description := by
  simp [wrapToolWithAbortSignal, h]

/-- Witness for C9 at the concrete tool `sampleTool`. -/
theorem wrap_preserves_other_fields_w :
    sampleTool.execute = some sampleExec ∧
    (wrapToolWithAbortSignal true sampleTool (some 0)).name = sampleTool.name ∧
    (wrapToolWithAbortSignal true sampleTool (some 0)).description
        = sampleTool.description :=
  ⟨rfl,
    (wrap_preserves_other_fields true sampleTool sampleExec 0 rfl).1,
    (wrap_preserves_other_fields true sampleTool sampleExec 0 rfl).2⟩

/-- C8: with both inputs provided and untriggered, if at least one fails the
structural `isRealAbortSignal` check, the combiner does not fail: it skips
the native `AbortSignal.any` shortcut and completes via the manual
derived-signal construction (fresh controller signal plus one-shot
listeners on both sources). -/
theorem combine_malformed_falls_back_to_manual (anyAvailable : Bool)
    (w : World) (a b : Nat)
    (hna : sigAborted w a = false) (hnb : sigAborted w b = false)
    (hmal : isRealAbortSignal w a = false ∨ isRealAbortSignal w b = false) :
    combineAbortSignals anyAvailable w (some a) (some b)
        = (addListener (addListener (w ++ [freshSignal]) a w.length) b
            w.length,
          some w.length, CombinePath.manual) := by
  rcases hmal with h | h <;> simp [combineAbortSignals, hna, hnb, h]

/-- Witness for C8: signal 1 resembles a signal but fails the structural
check, so combination takes the manual path and still succeeds. -/
theorem combine_malformed_falls_back_to_manual_w :
    sigAborted [freshSignal, fakeSignal] 0 = false ∧
    sigAborted [freshSignal, fakeSignal] 1 = false ∧
    (isRealAbortSignal [freshSignal, fakeSignal] 0 = false ∨
      isRealAbortSignal [freshSignal, fakeSignal] 1 = false) ∧
    combineAbortSignals true [freshSignal, fakeSignal] (some 0) (some 1)
        = (addListener
            (addListener ([freshSignal, fakeSignal] ++ [freshSignal]) 0 2) 1 2,
          some 2, CombinePath.manual) :=
  ⟨by decide, by decide, Or.inr (by decide),
    combine_malformed_falls_back_to_manual true [freshSignal, fakeSignal] 0 1
      (by decide) (by decide) (Or.inr (by decide))⟩

/-- C1: when the wrapped execution operation is invoked and the combined
signal (per-call merged with ambient) is already triggered, the call fails
with the error named "AbortError" with message "Aborted", and the
underlying execution operation is never invoked (the ghost invocation list
of the wrapper body is empty). -/
theorem wrapped_execute_rejects_when_combined_aborted (anyAvailable : Bool)
    (tool : AnyAgentTool) (execute : ExecFn) (amb : Nat) (w w' : World)
    (combined : Option Nat) (path : CombinePath) (toolCallId params : String)
    (signal : Option Nat) (onUpdate : Option String)
    (he : tool.execute = some execute)
    (hcomb : combineAbortSignals anyAvailable w signal (some amb)
        = (w', combined, path))
    (hab : combinedAborted w' combined = true) :
    ∃ wexec : ExecFn,
      (wrapToolWithAbortSignal anyAvailable tool (some amb)).execute
          = some wexec ∧
      wexec w toolCallId params signal onUpdate
          = (w', Except.error { name := "AbortError", message := "Aborted" }) ∧
      (wrappedExecute anyAvailable execute amb w toolCallId params signal
          onUpdate).2.2 = [] := by
  refine ⟨fun w toolCallId params signal onUpdate =>
      let r := wrappedExecute anyAvailable execute amb w toolCallId params
        signal onUpdate
      (r.1, r.2.1), ?_, ?_, ?_⟩
  · simp [wrapToolWithAbortSignal, he]
  · simp [wrappedExecute, hcomb, hab, throwAbortError]
  · simp [wrappedExecute, hcomb, hab]

/-- Witness for C1: ambient signal 0 already aborted, no per-call signal;
the wrapped `sampleTool` rejects with AbortError and makes no underlying
invocation. -/
theorem wrapped_execute_rejects_when_combined_aborted_w :
    sampleTool.execute = some sampleExec ∧
    combineAbortSignals true [abortedSignal] none (some 0)
        = ([abortedSignal], some 0, CombinePath.onlyB) ∧
    combinedAborted [abortedSignal] (some 0) = true ∧
    (∃ wexec : ExecFn,
      (wrapToolWithAbortSignal true sampleTool (some 0)).execute
          = some wexec ∧
      wexec [abortedSignal] "call-2" "p" none none
          = ([abortedSignal],
              Except.error { name := "AbortError", message := "Aborted" }) ∧
      (wrappedExecute true sampleExec 0 [abortedSignal] "call-2" "p" none
          none).2.2 = []) :=
  ⟨rfl, rfl, by decide,
    wrapped_execute_rejects_when_combined_aborted true sampleTool sampleExec 0
      [abortedSignal] [abortedSignal] (some 0) CombinePath.onlyB "call-2" "p"
      none none rfl rfl (by decide)⟩

/-- C4: when the wrapped execution operation is invoked and the combined
signal is not already triggered, the underlying execution operation is
invoked exactly once (ghost invocation list is the single record carrying
the unchanged call id, params and progress callback, with the combined
signal in place of the per-call signal), and its result or failure is
propagated unchanged. -/
theorem wrapped_execute_delegates_when_not_aborted (anyAvailable : Bool)
    (tool : AnyAgentTool) (execute : ExecFn) (amb : Nat) (w w' : World)
    (combined : Option Nat) (path : CombinePath) (toolCallId params : String)
    (signal : Option Nat) (onUpdate : Option String)
    (he : tool.execute = some execute)
    (hcomb : combineAbortSignals anyAvailable w signal (some amb)
        = (w', combined, path))
    (hnab : combinedAborted w' combined = false) :
    ∃ wexec : ExecFn,
      (wrapToolWithAbortSignal anyAvailable tool (some amb)).execute
          = some wexec ∧
      wexec w toolCallId params signal onUpdate
          = execute w' toolCallId params combined onUpdate ∧
      (wrappedExecute anyAvailable execute amb w toolCallId params signal
          onUpdate).2.2 = [⟨toolCallId, params, combined, onUpdate⟩] := by
  refine ⟨fun w toolCallId params signal onUpdate =>
      let r := wrappedExecute anyAvailable execute amb w toolCallId params
        signal onUpdate
      (r.1, r.2.1), ?_, ?_, ?_⟩
  · simp [wrapToolWithAbortSignal, he]
  · simp [wrappedExecute, hcomb, hnab]
  · simp [wrappedExecute, hcomb, hnab]

/-- Witness for C4: ambient signal 0 pending, no per-call signal; the
wrapped `sampleTool` delegates once to `sampleExec` with the combined
signal and propagates its result. -/
theorem wrapped_execute_delegates_when_not_aborted_w :
    sampleTool.execute = some sampleExec ∧
    combineAbortSignals true [freshSignal] none (some 0)
        = ([freshSignal], some 0, CombinePath.onlyB) ∧
    combinedAborted [freshSignal] (some 0) = false ∧
    (∃ wexec : ExecFn,
      (wrapToolWithAbortSignal true sampleTool (some 0)).execute
          = some wexec ∧
      wexec [freshSignal] "call-1" "p" none none
          = sampleExec [freshSignal] "call-1" "p" (some 0) none ∧
      (wrappedExecute true sampleExec 0 [freshSignal] "call-1" "p" none
          none).2.2 = [⟨"call-1", "p", some 0, none⟩]) :=
  ⟨rfl, rfl, by decide,
    wrapped_execute_delegates_when_not_aborted true sampleTool sampleExec 0
      [freshSignal] [freshSignal] (some 0) CombinePath.onlyB "call-1" "p"
      none none rfl rfl (by decide)⟩

/-- C2: combining two provided, untriggered signals yields a signal that is
not triggered immediately after combination; it becomes triggered after
either source is triggered (in either order, including both firing); and
once triggered, triggering again is a no-op — no error, no double
transition (abort of an already-aborted signal leaves the world
unchanged). -/
theorem combine_untriggered_or_semantics (anyAvailable : Bool)
    (w w' : World) (a b c : Nat) (path : CombinePath) (f : Nat)
    (ha : a < w.length) (hb : b < w.length)
    (hna : sigAborted w a = false) (hnb : sigAborted w b = false)
    (hf : 2 ≤ f)
    (hcomb : combineAbortSignals anyAvailable w (some a) (some b)
        = (w', some c, path)) :
    sigAborted w' c = false ∧
    sigAborted (triggerAbort f w' a) c = true ∧
    sigAborted (triggerAbort f w' b) c = true ∧
    sigAborted (triggerAbort f (triggerAbort f w' a) b) c = true ∧
    sigAborted (triggerAbort f (triggerAbort f w' b) a) c = true ∧
    (∀ w2 : World, sigAborted w2 c = true → triggerAbort f w2 c = w2) := by
  obtain ⟨h1, h2⟩ := combine_untriggered_parts anyAvailable w a b hna hnb
  rw [hcomb] at h1 h2
  have hc : c = w.length := by
    injection h2
  subst hc
  have hw : w' = addListener (addListener (w ++ [freshSignal]) a w.length) b
      w.length := h1
  subst hw
  have hlen : (addListener (addListener (w ++ [freshSignal]) a w.length) b
      w.length).length = w.length + 1 := combined_world_length w a b
  have hfire_a : sigAborted
      (triggerAbort f
        (addListener (addListener (w ++ [freshSignal]) a w.length) b w.length)
        a) w.length = true := by
    apply triggerAbort_listener_aborted f _ a w.length hf
    · exact combined_world_src_not_aborted w a b a ha hna
    · rw [hlen]; omega
    · exact combined_world_listener_a w a b ha hb
    · rw [hlen]; omega
  have hfire_b : sigAborted
      (triggerAbort f
        (addListener (addListener (w ++ [freshSignal]) a w.length) b w.length)
        b) w.length = true := by
    apply triggerAbort_listener_aborted f _ b w.length hf
    · exact combined_world_src_not_aborted w a b b hb hnb
    · rw [hlen]; omega
    · exact combined_world_listener_b w a b hb
    · rw [hlen]; omega
  refine ⟨combined_world_not_aborted w a b, hfire_a, hfire_b,
    triggerAbort_mono f _ b w.length hfire_a,
    triggerAbort_mono f _ a w.length hfire_b,
    fun w2 h => triggerAbort_noop f w2 w.length h⟩

/-- Witness for C2: two fresh real signals; combining picks the native
branch, the derived signal 2 is pending, fires after either source fires,
and re-triggering it is a no-op. -/
theorem combine_untriggered_or_semantics_w :
    (0 : Nat) < ([freshSignal, freshSignal] : World).length ∧
    (1 : Nat) < ([freshSignal, freshSignal] : World).length ∧
    sigAborted [freshSignal, freshSignal] 0 = false ∧
    sigAborted [freshSignal, freshSignal] 1 = false ∧
    (2 : Nat) ≤ 2 ∧
    combineAbortSignals true [freshSignal, freshSignal] (some 0) (some 1)
        = (addListener
            (addListener ([freshSignal, freshSignal] ++ [freshSignal]) 0 2) 1
            2,
          some 2, CombinePath.nativeAny) ∧
    (sigAborted
        (addListener
          (addListener ([freshSignal, freshSignal] ++ [freshSignal]) 0 2) 1 2)
        2 = false ∧
    sigAborted (triggerAbort 2
        (addListener
          (addListener ([freshSignal, freshSignal] ++ [freshSignal]) 0 2) 1 2)
        0) 2 = true ∧
    sigAborted (triggerAbort 2
        (addListener
          (addListener ([freshSignal, freshSignal] ++ [freshSignal]) 0 2) 1 2)
        1) 2 = true ∧
    sigAborted (triggerAbort 2 (triggerAbort 2
        (addListener
          (addListener ([freshSignal, freshSignal] ++ [freshSignal]) 0 2) 1 2)
        0) 1) 2 = true ∧
    sigAborted (triggerAbort 2 (triggerAbort 2
        (addListener
          (addListener ([freshSignal, freshSignal] ++ [freshSignal]) 0 2) 1 2)
        1) 0) 2 = true ∧
    (∀ w2 : World, sigAborted w2 2 = true → triggerAbort 2 w2 2 = w2)) :=
  ⟨by decide, by decide, by decide, by decide, by decide, by decide,
    combine_untriggered_or_semantics true [freshSignal, freshSignal]
      (addListener
        (addListener ([freshSignal, freshSignal] ++ [freshSignal]) 0 2) 1 2)
      0 1 2 CombinePath.nativeAny 2 (by decide) (by decide) (by decide)
      (by decide) (by decide) (by decide)⟩
